import Mathlib

/-!
Shallow embedding of the two Python scripts of the OLED_Stats repository:

* `multi.py`  — class `MultiDisplaySystem`: a TCA9548A I2C-multiplexer channel
  selector (`select_channel`), an Si7021 temperature/humidity reader
  (`_read_si7021`) behind the multiplexer, and display setup (`_setup_displays`).
* `btc.py`    — class `OLEDStatsDisplay`: an Si7021 reader (`_read_si7021`),
  a BH1750 light-sensor setup and reader (`_setup_light_sensor`, `_read_light`),
  and sensor setup (`_setup_si7021_sensor`).

Bus traffic is modelled as a list of events (`Ev`): byte writes, byte reads,
block reads and sleeps.  Python floats are modelled as rationals `ℚ`; every
arithmetic operation the scripts perform on sensor values (multiply by a
decimal constant, divide by a power of two or by 1.2, subtract, compare,
round to one decimal) is exact or far from a rounding boundary at every value
considered here, so the rational model agrees with IEEE doubles on all stated
facts.  Fallible Python code is modelled with `Except PyErr`; a `try/except`
block in the source becomes an explicit `match` on the body's result.
-/

namespace OLEDStats

/-- TCA9548A multiplexer address, `multi.py` line 21. -/
def TCA9548A_ADDRESS : Nat := 0x70

/-- Si7021 sensor address, `multi.py` line 27 and `btc.py` line 21. -/
def SI7021_ADDRESS : Nat := 0x40

/-- BH1750 light-sensor address, `btc.py` line 22. -/
def LIGHT_I2C_ADDRESS : Nat := 0x23

/-- Si7021 command, `multi.py` line 30 and `btc.py` line 27. -/
def MEASURE_HUMIDITY : Nat := 0xF5

/-- Si7021 command, `multi.py` line 31 and `btc.py` line 28. -/
def MEASURE_TEMPERATURE : Nat := 0xF3

/-- Si7021 command, `multi.py` line 32 and `btc.py` line 29. -/
def READ_TEMP_FROM_PREVIOUS_RH : Nat := 0xE0

/-- BH1750 command, `btc.py` line 33. -/
def LIGHT_POWER_ON : Nat := 0x01

/-- BH1750 command, `btc.py` line 34. -/
def LIGHT_RESET : Nat := 0x07

/-- BH1750 command, `btc.py` line 35. -/
def LIGHT_CONTINUOUS_HIGH_RES : Nat := 0x10

/-- The Python exceptions relevant to these scripts. -/
inductive PyErr
  /-- raised by `1 << channel` when `channel` is negative -/
  | valueError
  /-- raised by a failing I2C bus transaction -/
  | osError
  /-- raised explicitly by the setup routines when a device is absent -/
  | runtimeError
deriving DecidableEq

/-- One observable effect: an I2C byte write, a single-byte read, a block
read of `count` bytes, or a sleep of `ms` milliseconds. -/
inductive Ev
  | write (addr val : Nat)
  | readByte (addr : Nat)
  | readInto (addr count : Nat)
  | sleep (ms : Nat)
deriving DecidableEq

/-- The bus transport seen by `select_channel`: for each (address, value) pair,
whether `write_byte` succeeds. -/
structure Transport where
  writeOk : Nat → Nat → Bool

/-- Body of the `try` block of `select_channel` (`multi.py` lines 115-117):
the bus events attempted, and either success or the exception raised.
For a negative channel, `1 << channel` raises `ValueError` before any bus
write; otherwise `write_byte(TCA9548A_ADDRESS, 1 << channel)` is attempted
and, on success, is followed by `time.sleep(0.1)`. -/
def select_channel_try (t : Transport) (channel : Int) : List Ev × Except PyErr Unit :=
  if channel < 0 then
    ([], .error .valueError)
  else
    let v := 1 <<< channel.toNat
    if t.writeOk TCA9548A_ADDRESS v then
      ([.write TCA9548A_ADDRESS v, .sleep 100], .ok ())
    else
      ([.write TCA9548A_ADDRESS v], .error .osError)

/-- `select_channel` (`multi.py` lines 111-119).  `if channel > 7: return`
short-circuits before the `try` block; the `except` clause only logs, so any
exception from the body is swallowed and the method always returns normally.
The result is the list of bus events that actually occurred. -/
def select_channel (t : Transport) (channel : Int) : Except PyErr (List Ev) :=
  if channel > 7 then .ok []
  else
    match select_channel_try t channel with
    | (tr, .ok ()) => .ok tr
    | (tr, .error _) => .ok tr

/-- Humidity decode shared by `multi.py` line 193
(`((125.0 * raw_humidity) / 65536.0) - 6`) and `btc.py` line 113
(`((125 * humidity) / 65536) - 6`). -/
def humidity_decode (raw : Nat) : ℚ := 125.0 * raw / 65536.0 - 6

/-- Temperature decode shared by `multi.py` line 205 and `btc.py` line 117:
`((175.72 * raw_temp) / 65536.0) - 46.85`. -/
def temp_decode (raw : Nat) : ℚ := 175.72 * raw / 65536.0 - 46.85

/-- `humidity = max(0, min(100, humidity))`, `multi.py` line 212. -/
def clamp_humidity (h : ℚ) : ℚ := max 0 (min 100 h)

/-- `temp = max(-40, min(125, temp))`, `multi.py` line 213. -/
def clamp_temp (t : ℚ) : ℚ := max (-40) (min 125 t)

/-- Round to the nearest integer, ties to even: the rounding rule of Python's
built-in `round`. -/
def roundHalfEven (q : ℚ) : ℤ :=
  if q - ⌊q⌋ < 1 / 2 then ⌊q⌋
  else if 1 / 2 < q - ⌊q⌋ then ⌊q⌋ + 1
  else if 2 ∣ ⌊q⌋ then ⌊q⌋ else ⌊q⌋ + 1

/-- Python's `round(q, 1)`. -/
def round1 (q : ℚ) : ℚ := (roundHalfEven (10 * q) : ℚ) / 10

/-- Environment of one call of `multi.py`'s `_read_si7021`: whether each bus
write succeeds and, for each of the four `read_byte` calls, the byte returned
(`none` meaning the read raised). -/
structure SiEnv where
  muxResetOk : Bool
  humCmdOk : Bool
  humRead1 : Option Nat
  humRead2 : Option Nat
  tempCmdOk : Bool
  tempRead1 : Option Nat
  tempRead2 : Option Nat

/-- The value `_read_si7021` substitutes on any failure
(`multi.py` lines 219 and 223): `(22.5, 45.0)`. -/
def SI_FALLBACK : ℚ × ℚ := (22.5, 45.0)

/-- `multi.py` `_read_si7021` (lines 173-223), as (bus events, (temp, humidity)).
The outer `try` covers the multiplexer reset; the inner `try` covers the
measurement sequence; both `except` clauses return `(22.5, 45.0)`.  On the
success path: reset multiplexer, sleep 100 ms, write `0xF5`, sleep 25 ms,
read two bytes, write `0xF3`, sleep 25 ms, read two bytes, then decode,
clamp and round. -/
def read_si7021 (e : SiEnv) : List Ev × ℚ × ℚ :=
  if e.muxResetOk then
    let t0 := [Ev.write TCA9548A_ADDRESS 0, Ev.sleep 100]
    if e.humCmdOk then
      let t1 := t0 ++ [Ev.write SI7021_ADDRESS MEASURE_HUMIDITY, Ev.sleep 25]
      match e.humRead1 with
      | none => (t1 ++ [Ev.readByte SI7021_ADDRESS], SI_FALLBACK)
      | some b0 =>
        match e.humRead2 with
        | none => (t1 ++ [Ev.readByte SI7021_ADDRESS, Ev.readByte SI7021_ADDRESS], SI_FALLBACK)
        | some b1 =>
          let t2 := t1 ++ [Ev.readByte SI7021_ADDRESS, Ev.readByte SI7021_ADDRESS]
          let raw_humidity := (b0 <<< 8) + b1
          let humidity := humidity_decode raw_humidity
          if e.tempCmdOk then
            let t3 := t2 ++ [Ev.write SI7021_ADDRESS MEASURE_TEMPERATURE, Ev.sleep 25]
            match e.tempRead1 with
            | none => (t3 ++ [Ev.readByte SI7021_ADDRESS], SI_FALLBACK)
            | some c0 =>
              match e.tempRead2 with
              | none => (t3 ++ [Ev.readByte SI7021_ADDRESS, Ev.readByte SI7021_ADDRESS], SI_FALLBACK)
              | some c1 =>
                let t4 := t3 ++ [Ev.readByte SI7021_ADDRESS, Ev.readByte SI7021_ADDRESS]
                let raw_temp := (c0 <<< 8) + c1
                let temp := temp_decode raw_temp
                (t4, round1 (clamp_temp temp), round1 (clamp_humidity humidity))
          else (t2 ++ [Ev.write SI7021_ADDRESS MEASURE_TEMPERATURE], SI_FALLBACK)
    else (t0 ++ [Ev.write SI7021_ADDRESS MEASURE_HUMIDITY], SI_FALLBACK)
  else ([Ev.write TCA9548A_ADDRESS 0], SI_FALLBACK)

/-- Whether every bus operation of `multi.py`'s `_read_si7021` succeeds. -/
def siEnvOk (e : SiEnv) : Bool :=
  e.muxResetOk && e.humCmdOk && e.humRead1.isSome && e.humRead2.isSome &&
    e.tempCmdOk && e.tempRead1.isSome && e.tempRead2.isSome

/-- Environment of one call of `btc.py`'s `_read_si7021`: whether each
`writeto` succeeds, the three humidity bytes (`none` meaning the block read
raised) and the two temperature bytes. -/
structure BtcEnv where
  humCmdOk : Bool
  humRead : Option (Nat × Nat × Nat)
  tempCmdOk : Bool
  tempRead : Option (Nat × Nat)

/-- `btc.py` `_read_si7021` (lines 92-124), as (bus events, (temp, humidity)).
Success path: write `0xF5`, sleep 30 ms, block-read 3 bytes (the third is a
CRC byte the code ignores), write `0xE0` (read temperature from the previous
humidity measurement) with no sleep, block-read 2 bytes, then decode and
round — with no clamping.  The `except` clause returns `(None, None)`. -/
def btc_read_si7021 (e : BtcEnv) : List Ev × Option ℚ × Option ℚ :=
  if e.humCmdOk then
    let t1 := [Ev.write SI7021_ADDRESS MEASURE_HUMIDITY, Ev.sleep 30]
    match e.humRead with
    | none => (t1 ++ [Ev.readInto SI7021_ADDRESS 3], (none, none))
    | some (h0, h1, _) =>
      let t2 := t1 ++ [Ev.readInto SI7021_ADDRESS 3]
      if e.tempCmdOk then
        let t3 := t2 ++ [Ev.write SI7021_ADDRESS READ_TEMP_FROM_PREVIOUS_RH]
        match e.tempRead with
        | none => (t3 ++ [Ev.readInto SI7021_ADDRESS 2], (none, none))
        | some (c0, c1) =>
          let t4 := t3 ++ [Ev.readInto SI7021_ADDRESS 2]
          let humidity := humidity_decode ((h0 <<< 8) ||| h1)
          let temp := temp_decode ((c0 <<< 8) ||| c1)
          (t4, some (round1 temp), some (round1 humidity))
      else (t2 ++ [Ev.write SI7021_ADDRESS READ_TEMP_FROM_PREVIOUS_RH], (none, none))
  else ([Ev.write SI7021_ADDRESS MEASURE_HUMIDITY], (none, none))

/-- Whether every bus operation of `btc.py`'s `_read_si7021` succeeds. -/
def btcEnvOk (e : BtcEnv) : Bool :=
  e.humCmdOk && e.humRead.isSome && e.tempCmdOk && e.tempRead.isSome

/-- `btc.py` `_read_light` (lines 160-178): block-read 2 bytes from the
BH1750, decode `(result[0] << 8 | result[1]) / 1.2`, round to one decimal;
on failure return `None`.  The argument is the bytes the block read returns,
`none` meaning the read raised. -/
def read_light (r : Option (Nat × Nat)) : List Ev × Option ℚ :=
  match r with
  | none => ([Ev.readInto LIGHT_I2C_ADDRESS 2], none)
  | some (b0, b1) =>
    ([Ev.readInto LIGHT_I2C_ADDRESS 2],
     some (round1 ((((b0 <<< 8) ||| b1 : Nat) : ℚ) / 1.2)))

/-- `btc.py` `_setup_si7021_sensor` (lines 76-90): scan the bus; if the
Si7021 address is absent raise `RuntimeError`.  The `except` clause logs and
re-raises, so the error propagates out of `__init__`. -/
def setup_si7021_sensor (scan : List Nat) : Except PyErr Unit :=
  if scan.contains SI7021_ADDRESS then .ok ()
  else .error .runtimeError

/-- `btc.py` `_setup_light_sensor` (lines 126-147): scan the bus (raise
`RuntimeError` if the BH1750 is absent), then write power-on, reset and
continuous-high-resolution-mode command bytes, then sleep 200 ms.
`_light_sensor_write` re-raises on a failed write, and the setup's `except`
clause re-raises, so every failure propagates.  `wOk c` says whether the
write of command byte `c` succeeds. -/
def setup_light_sensor (scan : List Nat) (wOk : Nat → Bool) : List Ev × Except PyErr Unit :=
  if scan.contains LIGHT_I2C_ADDRESS then
    if wOk LIGHT_POWER_ON then
      if wOk LIGHT_RESET then
        if wOk LIGHT_CONTINUOUS_HIGH_RES then
          ([Ev.write LIGHT_I2C_ADDRESS LIGHT_POWER_ON,
            Ev.write LIGHT_I2C_ADDRESS LIGHT_RESET,
            Ev.write LIGHT_I2C_ADDRESS LIGHT_CONTINUOUS_HIGH_RES,
            Ev.sleep 200], .ok ())
        else
          ([Ev.write LIGHT_I2C_ADDRESS LIGHT_POWER_ON,
            Ev.write LIGHT_I2C_ADDRESS LIGHT_RESET,
            Ev.write LIGHT_I2C_ADDRESS LIGHT_CONTINUOUS_HIGH_RES], .error .osError)
      else
        ([Ev.write LIGHT_I2C_ADDRESS LIGHT_POWER_ON,
          Ev.write LIGHT_I2C_ADDRESS LIGHT_RESET], .error .osError)
    else ([Ev.write LIGHT_I2C_ADDRESS LIGHT_POWER_ON], .error .osError)
  else ([], .error .runtimeError)

/-- The three display channels configured in `multi.py` (lines 123-127):
BTC on channel 1, clock on channel 2, temperature on channel 3. -/
def display_channels : List Nat := [1, 2, 3]

/-- One display initialization attempt inside `_setup_displays`:
succeeds or raises, according to the environment `initOk`. -/
def init_display (initOk : Nat → Bool) (ch : Nat) : Except PyErr Unit :=
  if initOk ch then .ok () else .error .osError

/-- `multi.py` `_setup_displays` (lines 121-171): each display is initialized
inside a `try` whose `except` clause (lines 169-171) only logs and continues
with the next display, so no failure — not even of all three displays —
escapes the method.  Returns the channels whose display initialized. -/
def setup_displays (initOk : Nat → Bool) : Except PyErr (List Nat) :=
  .ok (display_channels.filter fun ch =>
    match init_display initOk ch with
    | .ok () => true
    | .error _ => false)

/-- A transport on which every write succeeds. -/
def allOkTransport : Transport := ⟨fun _ _ => true⟩

/-- A transport on which every write fails. -/
def noWriteTransport : Transport := ⟨fun _ _ => false⟩

/-- Any failing bus operation makes `multi.py`'s `_read_si7021` return the
hardcoded substitute `(22.5, 45.0)`. -/
theorem multi_read_fail (e : SiEnv) (h : siEnvOk e = false) :
    (read_si7021 e).2 = (22.5, 45.0) := by
  obtain ⟨m, hc, r1, r2, tc, s1, s2⟩ := e
  cases m <;> cases hc <;> cases r1 <;> cases r2 <;> cases tc <;> cases s1 <;> cases s2 <;>
    first
      | rfl
      | exact absurd h (by simp [siEnvOk])

/-- Any failing bus operation makes `btc.py`'s `_read_si7021` return
`(None, None)`. -/
theorem btc_read_fail (e : BtcEnv) (h : btcEnvOk e = false) :
    (btc_read_si7021 e).2 = (none, none) := by
  obtain ⟨hc, hr, tc, tr⟩ := e
  cases hc <;> cases hr <;> cases tc <;> cases tr <;>
    first
      | rfl
      | exact absurd h (by simp [btcEnvOk])

/-- `multi.py`'s `_read_si7021` writes the measure-humidity command at most
once per call: a failed reading is never retried. -/
theorem multi_read_humcmd_once (e : SiEnv) :
    (read_si7021 e).1.count (Ev.write SI7021_ADDRESS MEASURE_HUMIDITY) ≤ 1 := by
  obtain ⟨m, hc, r1, r2, tc, s1, s2⟩ := e
  cases m <;> cases hc <;> cases r1 <;> cases r2 <;> cases tc <;> cases s1 <;> cases s2 <;>
    simp [read_si7021] <;> decide

/-- `btc.py`'s `_read_si7021` writes the measure-humidity command at most
once per call: a failed reading is never retried. -/
theorem btc_read_humcmd_once (e : BtcEnv) :
    (btc_read_si7021 e).1.count (Ev.write SI7021_ADDRESS MEASURE_HUMIDITY) ≤ 1 := by
  obtain ⟨hc, hr, tc, tr⟩ := e
  cases hc <;> cases hr <;> cases tc <;> cases tr <;>
    simp [btc_read_si7021] <;> decide

/-- Claim C1, counterexample to the claim as stated: the claim asserts that
every Si7021 humidity decode (it cites both `multi.py` and `btc.py`) is
clamped to [0, 100] and that raw 65535 clamps to 100.0; but `btc.py`'s
decoder does not clamp, and on a successful reading with raw humidity
register 65535 it returns 119.0, which exceeds 100. -/
theorem C1_counterexample :
    (btc_read_si7021 ⟨true, some (255, 255, 0), true, some (0, 0)⟩).2.2 = some 119 ∧
    ¬ ((119 : ℚ) ≤ 100) := by
  constructor
  · have e1 : (btc_read_si7021 ⟨true, some (255, 255, 0), true, some (0, 0)⟩).2.2
        = some (round1 (humidity_decode ((255 <<< 8) ||| 255))) := rfl
    rw [e1, show ((255 <<< 8) ||| 255 : Nat) = 65535 from by decide]
    norm_num [round1, roundHalfEven, humidity_decode, Option.some.injEq]
  · norm_num

/-- Claim C1 (amended): both decoders compute
`humidity = 125.0 * raw / 65536.0 - 6.0` from the two big-endian raw bytes.
`multi.py` clamps the result to [0, 100] — raw 0 decodes to exactly -6.0
before clamping and to 0.0 after clamping and rounding, and raw 65535 clamps
to 100.0 — while `btc.py` returns the rounded unclamped value
(raw 65535 gives 119.0). -/
theorem C1_humidity_decode_and_clamp (b0 b1 c0 c1 h0 h1 h2 t0 t1 : Nat) :
    (read_si7021 ⟨true, true, some b0, some b1, true, some c0, some c1⟩).2.2 =
      round1 (clamp_humidity (humidity_decode ((b0 <<< 8) + b1))) ∧
    (btc_read_si7021 ⟨true, some (h0, h1, h2), true, some (t0, t1)⟩).2.2 =
      some (round1 (humidity_decode ((h0 <<< 8) ||| h1))) ∧
    humidity_decode 0 = -6 ∧
    round1 (clamp_humidity (humidity_decode 0)) = 0 ∧
    round1 (clamp_humidity (humidity_decode 65535)) = 100 ∧
    (∀ x : ℚ, 0 ≤ clamp_humidity x ∧ clamp_humidity x ≤ 100) ∧
    round1 (humidity_decode 65535) = 119 := by
  refine ⟨rfl, rfl, by norm_num [humidity_decode], ?_, ?_, ?_, ?_⟩
  · norm_num [round1, roundHalfEven, clamp_humidity, humidity_decode, min_def, max_def]
  · norm_num [round1, roundHalfEven, clamp_humidity, humidity_decode, min_def, max_def]
  · intro x
    simp only [clamp_humidity]
    exact ⟨le_max_left _ _, max_le (by norm_num) (min_le_left _ _)⟩
  · norm_num [round1, roundHalfEven, humidity_decode]

/-- Claim C2, counterexample to the claim as stated: the pre-clamp decode of
raw 32768 is exactly 41.01 °C, not approximately 40.015 °C — the difference
is 0.995, far beyond any rounding tolerance. -/
theorem C2_counterexample :
    temp_decode 32768 = 41.01 ∧ ¬ (|temp_decode 32768 - 40.015| ≤ 1 / 10) :=
  ⟨by norm_num [temp_decode], by norm_num [temp_decode, abs]⟩

/-- Claim C2 (amended): the pre-clamp temperature decode of a 16-bit
big-endian raw register value is `175.72 * raw / 65536.0 - 46.85` in both
scripts; raw 0 decodes to exactly -46.85 °C, and raw 32768 (half-scale)
decodes to exactly 41.01 °C (the spec's 40.015 figure is an arithmetic
slip: 175.72 * 32768 / 65536 - 46.85 = 87.86 - 46.85 = 41.01). -/
theorem C2_temperature_decode (b0 b1 c0 c1 h0 h1 h2 t0 t1 : Nat) :
    (read_si7021 ⟨true, true, some b0, some b1, true, some c0, some c1⟩).2.1 =
      round1 (clamp_temp (temp_decode ((c0 <<< 8) + c1))) ∧
    (btc_read_si7021 ⟨true, some (h0, h1, h2), true, some (t0, t1)⟩).2.1 =
      some (round1 (temp_decode ((t0 <<< 8) ||| t1))) ∧
    temp_decode 0 = -46.85 ∧
    temp_decode 32768 = 41.01 :=
  ⟨rfl, rfl, by norm_num [temp_decode], by norm_num [temp_decode]⟩

/-- Claim C3: for every channel in [0, 7], on a transport whose write
succeeds, `select_channel` writes exactly one byte equal to `1 << channel`
to the multiplexer's fixed control address 0x70 and then sleeps 100 ms
before anything else can happen on the bus. -/
theorem C3_select_channel_writes (t : Transport) (c : Int) (hge : 0 ≤ c) (hle : c ≤ 7)
    (hw : t.writeOk TCA9548A_ADDRESS (1 <<< c.toNat) = true) :
    select_channel t c =
      .ok [Ev.write TCA9548A_ADDRESS (1 <<< c.toNat), Ev.sleep 100] := by
  have h7 : ¬ c > 7 := by omega
  have h0 : ¬ c < 0 := by omega
  simp [select_channel, select_channel_try, h7, h0, hw]

/-- Witness for C3 at channel 3: one write of `1 << 3 = 8` to 0x70, then
the settle sleep. -/
theorem C3_select_channel_writes_witness :
    select_channel allOkTransport 3 =
      .ok [Ev.write TCA9548A_ADDRESS (1 <<< (3 : Int).toNat), Ev.sleep 100] :=
  C3_select_channel_writes allOkTransport 3 (by decide) (by decide) rfl

/-- Claim C4: for every channel greater than 7, `select_channel` is a silent
no-op — it returns normally with an empty bus trace (no write, no error). -/
theorem C4_select_channel_noop (t : Transport) (c : Int) (h : 7 < c) :
    select_channel t c = .ok [] := by
  simp [select_channel, h]

/-- Witness for C4 at channel 8 on an always-failing transport. -/
theorem C4_select_channel_noop_witness :
    select_channel noWriteTransport 8 = .ok [] :=
  C4_select_channel_noop noWriteTransport 8 (by decide)

/-- Claim C5, counterexample to the claim as stated: the claim asserts every
decoded temperature returned to the caller is clamped to [-40, 125] (it
cites both scripts), but `btc.py` does not clamp: on a successful reading
with raw temperature register 65535 it returns 128.9 °C, above 125. -/
theorem C5_counterexample :
    (btc_read_si7021 ⟨true, some (0, 0, 0), true, some (255, 255)⟩).2.1 = some 128.9 ∧
    ¬ ((128.9 : ℚ) ≤ 125) := by
  constructor
  · have e1 : (btc_read_si7021 ⟨true, some (0, 0, 0), true, some (255, 255)⟩).2.1
        = some (round1 (temp_decode ((255 <<< 8) ||| 255))) := rfl
    rw [e1, show ((255 <<< 8) ||| 255 : Nat) = 65535 from by decide]
    norm_num [round1, roundHalfEven, temp_decode, Option.some.injEq]
  · norm_num

/-- Claim C5 (amended): `multi.py` clamps the decoded temperature to
[-40, 125] and returns both results rounded to one decimal place; `btc.py`
rounds both results to one decimal place but applies no clamping
(raw temperature 65535 yields 128.9). -/
theorem C5_clamp_and_round (b0 b1 c0 c1 h0 h1 h2 t0 t1 : Nat) :
    (read_si7021 ⟨true, true, some b0, some b1, true, some c0, some c1⟩).2 =
      (round1 (clamp_temp (temp_decode ((c0 <<< 8) + c1))),
       round1 (clamp_humidity (humidity_decode ((b0 <<< 8) + b1)))) ∧
    (∀ x : ℚ, -40 ≤ clamp_temp x ∧ clamp_temp x ≤ 125) ∧
    (btc_read_si7021 ⟨true, some (h0, h1, h2), true, some (t0, t1)⟩).2 =
      (some (round1 (temp_decode ((t0 <<< 8) ||| t1))),
       some (round1 (humidity_decode ((h0 <<< 8) ||| h1)))) := by
  refine ⟨rfl, ?_, rfl⟩
  intro x
  simp only [clamp_temp]
  exact ⟨le_max_left _ _, max_le (by norm_num) (min_le_left _ _)⟩

/-- Claim C6, counterexample to the claim as stated: the claim (which cites
both scripts) says the reading writes the measure-temperature command byte
and waits the settle interval before reading the temperature bytes; but a
fully successful `btc.py` reading never writes the measure-temperature
command `0xF3` at all (it writes `0xE0`, read-temperature-from-previous-RH,
and reads immediately), and its trace contains exactly one sleep event. -/
theorem C6_counterexample :
    ((btc_read_si7021 ⟨true, some (0, 0, 0), true, some (0, 0)⟩).2.1).isSome = true ∧
    (btc_read_si7021 ⟨true, some (0, 0, 0), true, some (0, 0)⟩).1.count
      (Ev.write SI7021_ADDRESS MEASURE_TEMPERATURE) = 0 ∧
    ((btc_read_si7021 ⟨true, some (0, 0, 0), true, some (0, 0)⟩).1.filter
      (fun ev => match ev with | Ev.sleep _ => true | _ => false)).length = 1 := by
  refine ⟨rfl, ?_, ?_⟩ <;> (simp [btc_read_si7021] <;> decide)

/-- Claim C6 (amended): `multi.py`'s reading follows the claimed sequence —
reset multiplexer, sleep 100 ms, write the measure-humidity command `0xF5`,
sleep 25 ms, read the two raw humidity bytes, write the measure-temperature
command `0xF3`, sleep the same 25 ms interval, and only then read the two
raw temperature bytes.  `btc.py`'s reading instead writes `0xF5`, sleeps
30 ms, block-reads 3 bytes, then writes `0xE0` (read temperature from the
previous humidity measurement) and block-reads 2 bytes immediately, with no
second settle wait. -/
theorem C6_measurement_sequence (b0 b1 c0 c1 h0 h1 h2 t0 t1 : Nat) :
    (read_si7021 ⟨true, true, some b0, some b1, true, some c0, some c1⟩).1 =
      [Ev.write TCA9548A_ADDRESS 0, Ev.sleep 100,
       Ev.write SI7021_ADDRESS MEASURE_HUMIDITY, Ev.sleep 25,
       Ev.readByte SI7021_ADDRESS, Ev.readByte SI7021_ADDRESS,
       Ev.write SI7021_ADDRESS MEASURE_TEMPERATURE, Ev.sleep 25,
       Ev.readByte SI7021_ADDRESS, Ev.readByte SI7021_ADDRESS] ∧
    (btc_read_si7021 ⟨true, some (h0, h1, h2), true, some (t0, t1)⟩).1 =
      [Ev.write SI7021_ADDRESS MEASURE_HUMIDITY, Ev.sleep 30,
       Ev.readInto SI7021_ADDRESS 3,
       Ev.write SI7021_ADDRESS READ_TEMP_FROM_PREVIOUS_RH,
       Ev.readInto SI7021_ADDRESS 2] :=
  ⟨rfl, rfl⟩

/-- Claim C7, counterexample to the claim as stated: on a bus error,
`btc.py`'s `_read_si7021` does not return the hardcoded neutral values
22.5 °C / 45 % RH — it returns `(None, None)`. -/
theorem C7_counterexample :
    (btc_read_si7021 ⟨false, none, false, none⟩).2 = (none, none) ∧
    (none : Option ℚ) ≠ some 22.5 :=
  ⟨rfl, by simp⟩

/-- Claim C7 (amended): if any bus error occurs during either step of a
reading, the whole reading fails and the caller receives a substitute value
instead of a propagated error: the hardcoded neutral pair 22.5 °C / 45 % RH
in `multi.py`, and the absent pair `(None, None)` in `btc.py`. -/
theorem C7_failure_fallback :
    (∀ e : SiEnv, siEnvOk e = false → (read_si7021 e).2 = (22.5, 45.0)) ∧
    (∀ e : BtcEnv, btcEnvOk e = false → (btc_read_si7021 e).2 = (none, none)) :=
  ⟨multi_read_fail, btc_read_fail⟩

/-- Witness for C7: a reading whose very first bus operation fails yields
`(22.5, 45.0)` in `multi.py` and `(None, None)` in `btc.py`. -/
theorem C7_failure_fallback_witness :
    (read_si7021 ⟨false, false, none, none, false, none, none⟩).2 = (22.5, 45.0) ∧
    (btc_read_si7021 ⟨false, none, false, none⟩).2 = (none, none) :=
  ⟨C7_failure_fallback.1 ⟨false, false, none, none, false, none, none⟩ rfl,
   C7_failure_fallback.2 ⟨false, none, false, none⟩ rfl⟩

/-- Claim C8, counterexample to the claim as stated: total failure during
one-time device setup is not always escalated — in `multi.py`,
`_setup_displays` catches every per-display failure (lines 169-171), so even
when all three displays fail to initialize the method returns normally with
no display configured, and the process continues. -/
theorem C8_counterexample :
    setup_displays (fun _ => false) = .ok [] :=
  rfl

/-- Claim C8 (amended): in `btc.py`, a setup failure propagates out of
initialization (the sensor setups re-raise, and the main guard logs and
terminates), whereas in `multi.py` display-setup failures are caught per
display and initialization continues.  In both scripts, every error during a
steady-state read is caught at the point of occurrence and converted to an
absent value (`(None, None)` / `None` in `btc.py`) or a hardcoded fallback
(`(22.5, 45.0)` in `multi.py`), and no reading is retried: each call writes
the measurement command at most once. -/
theorem C8_error_policy :
    (∀ scan : List Nat, SI7021_ADDRESS ∉ scan →
      setup_si7021_sensor scan = .error .runtimeError) ∧
    (∀ (scan : List Nat) (wOk : Nat → Bool), LIGHT_I2C_ADDRESS ∉ scan →
      (setup_light_sensor scan wOk).2 = .error .runtimeError) ∧
    (∀ initOk : Nat → Bool, ∃ l, setup_displays initOk = .ok l) ∧
    (∀ e : SiEnv, siEnvOk e = false → (read_si7021 e).2 = (22.5, 45.0)) ∧
    (∀ e : BtcEnv, btcEnvOk e = false → (btc_read_si7021 e).2 = (none, none)) ∧
    read_light none = ([Ev.readInto LIGHT_I2C_ADDRESS 2], none) ∧
    (∀ e : SiEnv, (read_si7021 e).1.count (Ev.write SI7021_ADDRESS MEASURE_HUMIDITY) ≤ 1) ∧
    (∀ e : BtcEnv, (btc_read_si7021 e).1.count (Ev.write SI7021_ADDRESS MEASURE_HUMIDITY) ≤ 1) := by
  refine ⟨?_, ?_, ?_, multi_read_fail, btc_read_fail, rfl,
    multi_read_humcmd_once, btc_read_humcmd_once⟩
  · intro scan h
    simp [setup_si7021_sensor, h]
  · intro scan wOk h
    simp [setup_light_sensor, h]
  · intro initOk
    exact ⟨_, rfl⟩

/-- Witness for C8 at concrete inputs: absent devices make both `btc.py`
setups raise, while both readers substitute values on a failing bus. -/
theorem C8_error_policy_witness :
    setup_si7021_sensor [] = .error .runtimeError ∧
    (setup_light_sensor [] (fun _ => true)).2 = .error .runtimeError ∧
    (read_si7021 ⟨false, false, none, none, false, none, none⟩).2 = (22.5, 45.0) ∧
    (btc_read_si7021 ⟨false, none, false, none⟩).2 = (none, none) :=
  ⟨C8_error_policy.1 [] (by simp),
   C8_error_policy.2.1 [] (fun _ => true) (by simp),
   C8_error_policy.2.2.2.1 ⟨false, false, none, none, false, none, none⟩ rfl,
   C8_error_policy.2.2.2.2.1 ⟨false, none, false, none⟩ rfl⟩

/-- Claim C9: the BH1750 one-time setup writes the power-on byte, then the
reset byte, then the continuous-high-resolution-mode byte, then sleeps
200 ms; every steady-state read block-reads 2 raw big-endian bytes and
returns `lux = raw / 1.2` rounded to one decimal, so raw bytes
`[0x01, 0x2C]` (raw value 300) yield exactly 250.0 lux. -/
theorem C9_light_sensor (scan : List Nat) (wOk : Nat → Bool)
    (hs : LIGHT_I2C_ADDRESS ∈ scan)
    (hp : wOk LIGHT_POWER_ON = true) (hr : wOk LIGHT_RESET = true)
    (hm : wOk LIGHT_CONTINUOUS_HIGH_RES = true) :
    setup_light_sensor scan wOk =
      ([Ev.write LIGHT_I2C_ADDRESS LIGHT_POWER_ON,
        Ev.write LIGHT_I2C_ADDRESS LIGHT_RESET,
        Ev.write LIGHT_I2C_ADDRESS LIGHT_CONTINUOUS_HIGH_RES,
        Ev.sleep 200], .ok ()) ∧
    (∀ b0 b1 : Nat, read_light (some (b0, b1)) =
      ([Ev.readInto LIGHT_I2C_ADDRESS 2],
       some (round1 ((((b0 <<< 8) ||| b1 : Nat) : ℚ) / 1.2)))) ∧
    (read_light (some (0x01, 0x2C))).2 = some 250 := by
  refine ⟨by simp [setup_light_sensor, hs, hp, hr, hm], fun b0 b1 => rfl, ?_⟩
  have e1 : (read_light (some (0x01, 0x2C))).2
      = some (round1 ((((0x01 <<< 8) ||| 0x2C : Nat) : ℚ) / 1.2)) := rfl
  rw [e1, show ((0x01 <<< 8) ||| 0x2C : Nat) = 300 from by decide]
  norm_num [round1, roundHalfEven, Option.some.injEq]

/-- Witness for C9: the BH1750 present on the bus with all writes
succeeding. -/
theorem C9_light_sensor_witness :
    setup_light_sensor [LIGHT_I2C_ADDRESS] (fun _ => true) =
      ([Ev.write LIGHT_I2C_ADDRESS LIGHT_POWER_ON,
        Ev.write LIGHT_I2C_ADDRESS LIGHT_RESET,
        Ev.write LIGHT_I2C_ADDRESS LIGHT_CONTINUOUS_HIGH_RES,
        Ev.sleep 200], .ok ()) ∧
    (∀ b0 b1 : Nat, read_light (some (b0, b1)) =
      ([Ev.readInto LIGHT_I2C_ADDRESS 2],
       some (round1 ((((b0 <<< 8) ||| b1 : Nat) : ℚ) / 1.2)))) ∧
    (read_light (some (0x01, 0x2C))).2 = some 250 :=
  C9_light_sensor [LIGHT_I2C_ADDRESS] (fun _ => true) (by simp) rfl rfl rfl

/-- Claim C10: `select_channel` is total with respect to its caller: for
every integer channel, including negative values, and every transport
behavior (including a failing write), it returns normally; and for any
channel outside [0, 7] no byte is ever written — channels above 7 are
rejected before the `try` block, and negative channels reach the `try`
block but `1 << channel` raises before the write and the exception is
caught, leaving an empty bus trace. -/
theorem C10_select_channel_total (t : Transport) (c : Int) :
    (∃ tr, select_channel t c = .ok tr) ∧
    ((c < 0 ∨ 7 < c) → select_channel t c = .ok []) := by
  constructor
  · by_cases h7 : c > 7
    · exact ⟨[], by simp [select_channel, h7]⟩
    · by_cases h0 : c < 0
      · exact ⟨[], by simp [select_channel, select_channel_try, h7, h0]⟩
      · by_cases hw : t.writeOk TCA9548A_ADDRESS (1 <<< c.toNat)
        · exact ⟨[Ev.write TCA9548A_ADDRESS (1 <<< c.toNat), Ev.sleep 100],
            by simp [select_channel, select_channel_try, h7, h0, hw]⟩
        · exact ⟨[Ev.write TCA9548A_ADDRESS (1 <<< c.toNat)],
            by simp [select_channel, select_channel_try, h7, h0, hw]⟩
  · intro h
    rcases h with h | h
    · have h7 : ¬ c > 7 := by omega
      simp [select_channel, select_channel_try, h7, h]
    · simp [select_channel, h]

/-- Witness for C10: a negative channel on an always-failing transport
returns normally with no bus write. -/
theorem C10_select_channel_total_witness :
    (∃ tr, select_channel noWriteTransport (-1) = .ok tr) ∧
    select_channel noWriteTransport (-1) = .ok [] :=
  ⟨(C10_select_channel_total noWriteTransport (-1)).1,
   (C10_select_channel_total noWriteTransport (-1)).2 (Or.inl (by decide))⟩

end OLEDStats
